import Mathlib

/-!
Shallow embedding of the Event Management API (`src/server.js`, with the
statistics handler from `src/event-stats.js`).

The server is an Express application over three MongoDB collections
(events, attendees, organizers) accessed through Mongoose.  Each route
handler is embedded as a pure function from the collection's current
contents (a list of stored documents, in insertion order) and the request
data to the new contents and an HTTP response.

Modelling conventions, matching the source:
* A stored document carries the database-native identifier `_id` (field
  `oid` below) and the Mongoose version key `__v` (field `vkey`), plus the
  schema fields.  `select("-_id -__v")` and the inclusive projections
  `select("id name ... -_id")` both produce exactly the schema fields, which
  is what `toJson` renders.
* The `:id` path parameter reaches every handler already coerced by
  `Number(req.params.id)`; the coerced JavaScript number is modelled as
  `Option Int`, with `none` standing for `NaN`.  `NaN` compares unequal to
  every stored id, so a query filter `{id: NaN}` matches no document.
* Request bodies are modelled per schema: a field of the body is `none`
  when the JSON key is absent.  Fields the schema marks `required` are
  non-optional in the POST bodies (Mongoose validation rejects their
  absence before anything is stored).  The `id: {unique: true}` index is
  modelled as a store invariant (`Nodup` on ids) hypothesised where needed.
* Object spread `{ id: x, ...body }` is embedded by `jsSpread`: later keys
  override the value of an earlier duplicate key but keep its position.
* The repository also contains a simpler variant
  (`src/unnamed/part_000`) whose Event schema coincides with the full
  one but whose handlers differ: its `GET /api/events` is a bare
  `Event.find()` with no sort and no projection (so documents are
  serialized with `_id` and `__v`, in natural insertion order,
  `toJsonFull` below), and its `DELETE /api/events/:id` is
  `findByIdAndDelete` on the native `_id` followed by an unconditional
  200 confirmation — it has no 404 path.  These are embedded as the
  `...Simple` handlers.
-/

namespace EventApi

/-- JSON values, as produced by `res.json`. Object fields are ordered, as
in the serialized output. -/
inductive Json where
  | num (n : Int)
  | str (s : String)
  | obj (fields : List (String × Json))
  | arr (elems : List Json)
deriving Repr

/-- An HTTP response: status code and JSON body. -/
structure Resp where
  status : Nat
  body : Json
deriving Repr

/-- The result of `Number(req.params.id)`: a JavaScript number that is
either a genuine integer or `NaN` (`none`). -/
abbrev JsNum := Option Int

/-- Equality test between the coerced path parameter and a stored `id`,
as evaluated by the query filter `{id: Number(req.params.id)}`.
`NaN` compares unequal to every number. -/
def matchesId (n : JsNum) (i : Int) : Bool :=
  match n with
  | some k => i == k
  | none => false

/-- An object body as an ordered association list (keys distinct). -/
abbrev Doc := List (String × Json)

/-- Assign key `k` to value `v` in an object: an existing key keeps its
position but takes the new value; a new key is appended. -/
def setKey : Doc → String → Json → Doc
  | [], k, v => [(k, v)]
  | (k', v') :: rest, k, v =>
      if k' = k then (k, v) :: rest else (k', v') :: setKey rest k v

/-- JavaScript object-literal semantics of `{ ...base, ...upd }`:
fold the update's keys into the base with `setKey`. -/
def jsSpread (base upd : Doc) : Doc :=
  upd.foldl (fun acc kv => setKey acc kv.1 kv.2) base

/-- Render an optional string field of a document. -/
def optStr (k : String) : Option String → Doc
  | some s => [(k, Json.str s)]
  | none => []

/-- Render an optional integer field of a document. -/
def optNum (k : String) : Option Int → Doc
  | some n => [(k, Json.num n)]
  | none => []

/-- The keys present in a JSON object (`[]` for non-objects). -/
def Json.objKeys : Json → List String
  | Json.obj fields => fields.map Prod.fst
  | _ => []

/-- Sort a collection ascending by an integer field (`.sort({id: 1})`). -/
def sortByAsc {α : Type} (f : α → Int) (l : List α) : List α :=
  l.mergeSort (fun a b => f a ≤ f b)

/-- Sort a collection descending by an integer field (`.sort({id: -1})`). -/
def sortByDesc {α : Type} (f : α → Int) (l : List α) : List α :=
  l.mergeSort (fun a b => f b ≤ f a)

/-- Replace the first element satisfying `p` by its image under `f`,
leaving everything else in place (`findOneAndUpdate`'s effect). -/
def updateFirst {α : Type} (p : α → Bool) (f : α → α) : List α → List α
  | [] => []
  | x :: xs => if p x then f x :: xs else x :: updateFirst p f xs

/-! ### Events (`eventSchema`: id unique required; name, date, venue optional strings) -/

/-- A stored Event document: native `_id` (`oid`), version key `__v`
(`vkey`), and the schema fields. -/
structure Event where
  oid : Nat
  vkey : Nat
  id : Int
  name : Option String
  date : Option String
  venue : Option String
deriving Repr, DecidableEq

/-- A JSON body for POST/PATCH on events: every schema field is optional. -/
structure EventBody where
  id : Option Int
  name : Option String
  date : Option String
  venue : Option String
deriving Repr, DecidableEq

/-- The body's fields as an ordered JSON object. -/
def EventBody.toDoc (b : EventBody) : Doc :=
  optNum "id" b.id ++ optStr "name" b.name ++ optStr "date" b.date
    ++ optStr "venue" b.venue

/-- Serialization of an Event after `select("-_id -__v")`: the schema
fields that are present, `_id` and `__v` excluded. -/
def Event.toJson (e : Event) : Json :=
  Json.obj ([("id", Json.num e.id)] ++ optStr "name" e.name
    ++ optStr "date" e.date ++ optStr "venue" e.venue)

/-- The 404 body of the event routes. -/
def eventNotFound : Json := Json.obj [("message", Json.str "Event not found")]

/-- A fresh native `_id` for an inserted document (the driver assigns a
new ObjectId, distinct from every stored one). -/
def freshOid {α : Type} (oidOf : α → Nat) (db : List α) : Nat :=
  (db.map oidOf).foldr max 0 + 1

/-- Handler of `GET /api/events`: all events sorted ascending by `id`,
internal fields projected away, status 200. -/
def getEvents (db : List Event) : Resp :=
  ⟨200, Json.arr ((sortByAsc Event.id db).map Event.toJson)⟩

/-- Handler of `GET /api/events/:id`: `findOne({id: n})`, 404 if absent. -/
def getEventById (db : List Event) (n : JsNum) : Resp :=
  match db.find? (fun e => matchesId n e.id) with
  | none => ⟨404, eventNotFound⟩
  | some e => ⟨200, e.toJson⟩

/-- The id `POST /api/events` computes: one plus the id of the first
document of the descending-by-id sort, or 1 when the collection is empty. -/
def newEventId (db : List Event) : Int :=
  match (sortByDesc Event.id db).head? with
  | none => 1
  | some lastEvent => lastEvent.id + 1

/-- Handler of `POST /api/events`: build `new Event({id: newId, ...body})`
(the body's own `id` key, when present, overrides the computed one), save
it, and answer 201 with `{id: newEvent.id, ...body}`. -/
def postEvents (db : List Event) (b : EventBody) : List Event × Resp :=
  let newId := newEventId db
  let newEvent : Event :=
    { oid := freshOid Event.oid db, vkey := 0, id := b.id.getD newId,
      name := b.name, date := b.date, venue := b.venue }
  (db ++ [newEvent],
   ⟨201, Json.obj (jsSpread [("id", Json.num newEvent.id)] b.toDoc)⟩)

/-- The `$set` of an event PATCH body: fields present in the body take the
body's value, everything else (including `_id` and `__v`) is unchanged. -/
def applySetEvent (b : EventBody) (e : Event) : Event :=
  { e with
    id := match b.id with | some v => v | none => e.id
    name := match b.name with | some v => some v | none => e.name
    date := match b.date with | some v => some v | none => e.date
    venue := match b.venue with | some v => some v | none => e.venue }

/-- Handler of `PATCH /api/events/:id`: `findOneAndUpdate({id: n},
{$set: body}, {new: true})`, 404 when no document matches. -/
def patchEventById (db : List Event) (n : JsNum) (b : EventBody) :
    List Event × Resp :=
  match db.find? (fun e => matchesId n e.id) with
  | none => (db, ⟨404, eventNotFound⟩)
  | some e =>
      (updateFirst (fun e => matchesId n e.id) (applySetEvent b) db,
       ⟨200, (applySetEvent b e).toJson⟩)

/-- Handler of `DELETE /api/events/:id`: `findOneAndDelete({id: n})`,
404 when no document matches. -/
def deleteEventById (db : List Event) (n : JsNum) : List Event × Resp :=
  match db.find? (fun e => matchesId n e.id) with
  | none => (db, ⟨404, eventNotFound⟩)
  | some _ =>
      (db.eraseP (fun e => matchesId n e.id),
       ⟨200, Json.obj [("message", Json.str "Event deleted successfully")]⟩)

/-! ### The simple variant (`src/unnamed/part_000`) -/

/-- Serialization of an Event with no projection applied, as `res.json`
renders a raw Mongoose document: the native `_id` first, then the schema
fields in insertion order, then the version key `__v`. -/
def Event.toJsonFull (e : Event) : Json :=
  Json.obj (("_id", Json.num e.oid) :: ("id", Json.num e.id) ::
    (optStr "name" e.name ++ optStr "date" e.date ++ optStr "venue" e.venue
      ++ [("__v", Json.num e.vkey)]))

/-- Handler of `GET /api/events` in the simple variant: a bare
`Event.find()` — no sort, no projection — answered 200. -/
def getEventsSimple (db : List Event) : Resp :=
  ⟨200, Json.arr (db.map Event.toJsonFull)⟩

/-- Handler of `DELETE /api/events/:id` in the simple variant:
`findByIdAndDelete(req.params.id)` removes the document whose native
`_id` matches, if any, and the response is an unconditional 200 with the
confirmation message — the handler has no 404 path. -/
def deleteEventByIdSimple (db : List Event) (oidParam : Nat) :
    List Event × Resp :=
  (db.eraseP (fun e => e.oid == oidParam),
   ⟨200, Json.obj [("message", Json.str "Event deleted successfully")]⟩)

/-! ### Attendees (`attendeeSchema`: id unique required; name required
string; eventId required number) -/

/-- A stored Attendee document. -/
structure Attendee where
  oid : Nat
  vkey : Nat
  id : Int
  name : String
  eventId : Int
deriving Repr, DecidableEq

/-- A JSON body for `POST /api/attendees`: `name` and `eventId` are
`required` in the schema, so a saved body carries both; an `id` key may
additionally be present. -/
structure AttendeePost where
  id : Option Int
  name : String
  eventId : Int
deriving Repr, DecidableEq

/-- A JSON body for `PATCH /api/attendees/:id`: every field optional. -/
structure AttendeePatch where
  id : Option Int
  name : Option String
  eventId : Option Int
deriving Repr, DecidableEq

/-- Serialization of an Attendee after `select("id name eventId -_id")`. -/
def Attendee.toJson (a : Attendee) : Json :=
  Json.obj [("id", Json.num a.id), ("name", Json.str a.name),
    ("eventId", Json.num a.eventId)]

/-- The 404 body of the attendee routes. -/
def attendeeNotFound : Json :=
  Json.obj [("message", Json.str "Attendee not found")]

/-- Handler of `GET /api/attendees`. -/
def getAttendees (db : List Attendee) : Resp :=
  ⟨200, Json.arr ((sortByAsc Attendee.id db).map Attendee.toJson)⟩

/-- Handler of `GET /api/attendees/:id`. -/
def getAttendeeById (db : List Attendee) (n : JsNum) : Resp :=
  match db.find? (fun a => matchesId n a.id) with
  | none => ⟨404, attendeeNotFound⟩
  | some a => ⟨200, a.toJson⟩

/-- The id `POST /api/attendees` computes. -/
def newAttendeeId (db : List Attendee) : Int :=
  match (sortByDesc Attendee.id db).head? with
  | none => 1
  | some lastAttendee => lastAttendee.id + 1

/-- Handler of `POST /api/attendees`: the response echoes `id`, `name`
and `eventId` from the saved document. -/
def postAttendees (db : List Attendee) (b : AttendeePost) :
    List Attendee × Resp :=
  let newId := newAttendeeId db
  let newAttendee : Attendee :=
    { oid := freshOid Attendee.oid db, vkey := 0, id := b.id.getD newId,
      name := b.name, eventId := b.eventId }
  (db ++ [newAttendee],
   ⟨201, Json.obj [("id", Json.num newAttendee.id),
     ("name", Json.str newAttendee.name),
     ("eventId", Json.num newAttendee.eventId)]⟩)

/-- The `$set` of an attendee PATCH body. -/
def applySetAttendee (b : AttendeePatch) (a : Attendee) : Attendee :=
  { a with
    id := match b.id with | some v => v | none => a.id
    name := match b.name with | some v => v | none => a.name
    eventId := match b.eventId with | some v => v | none => a.eventId }

/-- Handler of `PATCH /api/attendees/:id`. -/
def patchAttendeeById (db : List Attendee) (n : JsNum) (b : AttendeePatch) :
    List Attendee × Resp :=
  match db.find? (fun a => matchesId n a.id) with
  | none => (db, ⟨404, attendeeNotFound⟩)
  | some a =>
      (updateFirst (fun a => matchesId n a.id) (applySetAttendee b) db,
       ⟨200, (applySetAttendee b a).toJson⟩)

/-- Handler of `DELETE /api/attendees/:id`. -/
def deleteAttendeeById (db : List Attendee) (n : JsNum) :
    List Attendee × Resp :=
  match db.find? (fun a => matchesId n a.id) with
  | none => (db, ⟨404, attendeeNotFound⟩)
  | some _ =>
      (db.eraseP (fun a => matchesId n a.id),
       ⟨200, Json.obj [("message", Json.str "Attendee removed")]⟩)

/-! ### Organizers (`organizerSchema`: id unique required; name required
string; contact required string) -/

/-- A stored Organizer document. -/
structure Organizer where
  oid : Nat
  vkey : Nat
  id : Int
  name : String
  contact : String
deriving Repr, DecidableEq

/-- A JSON body for `POST /api/organizers`: `name` and `contact` are
`required`; an `id` key may additionally be present. -/
structure OrganizerPost where
  id : Option Int
  name : String
  contact : String
deriving Repr, DecidableEq

/-- A JSON body for `PATCH /api/organizers/:id`: every field optional. -/
structure OrganizerPatch where
  id : Option Int
  name : Option String
  contact : Option String
deriving Repr, DecidableEq

/-- Serialization of an Organizer after `select("id name contact -_id")`. -/
def Organizer.toJson (o : Organizer) : Json :=
  Json.obj [("id", Json.num o.id), ("name", Json.str o.name),
    ("contact", Json.str o.contact)]

/-- The 404 body of the organizer routes. -/
def organizerNotFound : Json :=
  Json.obj [("message", Json.str "Organizer not found")]

/-- Handler of `GET /api/organizers`. -/
def getOrganizers (db : List Organizer) : Resp :=
  ⟨200, Json.arr ((sortByAsc Organizer.id db).map Organizer.toJson)⟩

/-- Handler of `GET /api/organizers/:id`. -/
def getOrganizerById (db : List Organizer) (n : JsNum) : Resp :=
  match db.find? (fun o => matchesId n o.id) with
  | none => ⟨404, organizerNotFound⟩
  | some o => ⟨200, o.toJson⟩

/-- The id `POST /api/organizers` computes. -/
def newOrganizerId (db : List Organizer) : Int :=
  match (sortByDesc Organizer.id db).head? with
  | none => 1
  | some lastOrg => lastOrg.id + 1

/-- Handler of `POST /api/organizers`. -/
def postOrganizers (db : List Organizer) (b : OrganizerPost) :
    List Organizer × Resp :=
  let newId := newOrganizerId db
  let newOrg : Organizer :=
    { oid := freshOid Organizer.oid db, vkey := 0, id := b.id.getD newId,
      name := b.name, contact := b.contact }
  (db ++ [newOrg],
   ⟨201, Json.obj [("id", Json.num newOrg.id),
     ("name", Json.str newOrg.name),
     ("contact", Json.str newOrg.contact)]⟩)

/-- The `$set` of an organizer PATCH body. -/
def applySetOrganizer (b : OrganizerPatch) (o : Organizer) : Organizer :=
  { o with
    id := match b.id with | some v => v | none => o.id
    name := match b.name with | some v => v | none => o.name
    contact := match b.contact with | some v => v | none => o.contact }

/-- Handler of `PATCH /api/organizers/:id`. -/
def patchOrganizerById (db : List Organizer) (n : JsNum) (b : OrganizerPatch) :
    List Organizer × Resp :=
  match db.find? (fun o => matchesId n o.id) with
  | none => (db, ⟨404, organizerNotFound⟩)
  | some o =>
      (updateFirst (fun o => matchesId n o.id) (applySetOrganizer b) db,
       ⟨200, (applySetOrganizer b o).toJson⟩)

/-- Handler of `DELETE /api/organizers/:id`. -/
def deleteOrganizerById (db : List Organizer) (n : JsNum) :
    List Organizer × Resp :=
  match db.find? (fun o => matchesId n o.id) with
  | none => (db, ⟨404, organizerNotFound⟩)
  | some _ =>
      (db.eraseP (fun o => matchesId n o.id),
       ⟨200, Json.obj [("message", Json.str "Organizer deleted")]⟩)

/-! ### Statistics endpoint (`src/event-stats.js`) -/

/-- Handler of the statistics endpoint: on `GET`, 200 with the two
collection counts (`countDocuments`); on any other method, 405. -/
def eventStats (method : String) (events : List Event)
    (attendees : List Attendee) : Resp :=
  if method = "GET" then
    ⟨200, Json.obj [("totalEvents", Json.num events.length),
      ("totalAttendees", Json.num attendees.length)]⟩
  else
    ⟨405, Json.obj [("message", Json.str "Method not allowed")]⟩

/-! ### Sample documents used to instantiate the properties -/

/-- A sample stored Event with id 1. -/
def sampleEvent : Event :=
  { oid := 1, vkey := 0, id := 1, name := some "Launch",
    date := some "2024-01-01", venue := some "Hall A" }

/-- A second sample stored Event, with id 2 and native `_id` 2. -/
def sampleEvent2 : Event :=
  { oid := 2, vkey := 0, id := 2, name := some "Second",
    date := none, venue := none }

/-- A sample stored Attendee with id 1. -/
def sampleAttendee : Attendee :=
  { oid := 1, vkey := 0, id := 1, name := "Alice", eventId := 1 }

/-- A sample stored Organizer with id 1. -/
def sampleOrganizer : Organizer :=
  { oid := 1, vkey := 0, id := 1, name := "Olga", contact := "olga@x.y" }

/-! ### Generic lemmas about the list-level persistence operations -/

/-- The ascending sort is a permutation of the collection. -/
theorem sortByAsc_perm {α : Type} (f : α → Int) (l : List α) :
    (sortByAsc f l).Perm l :=
  List.mergeSort_perm l _

/-- The ascending sort is sorted by the key. -/
theorem sortByAsc_pairwise {α : Type} (f : α → Int) (l : List α) :
    (sortByAsc f l).Pairwise (fun a b => f a ≤ f b) := by
  unfold sortByAsc
  refine (List.sorted_mergeSort ?_ ?_ l).imp (fun hab => by simpa using hab)
  · intro a b c hab hbc
    simp only [decide_eq_true_eq] at hab hbc ⊢; omega
  · intro a b
    simp only [Bool.or_eq_true, decide_eq_true_eq]; omega

/-- The descending sort is a permutation of the collection. -/
theorem sortByDesc_perm {α : Type} (f : α → Int) (l : List α) :
    (sortByDesc f l).Perm l :=
  List.mergeSort_perm l _

/-- The first document of the descending-by-key sort is a member of the
collection whose key is maximal. -/
theorem head_sortByDesc_max {α : Type} (f : α → Int) (l : List α) (e : α)
    (h : (sortByDesc f l).head? = some e) :
    e ∈ l ∧ ∀ x ∈ l, f x ≤ f e := by
  have hperm := sortByDesc_perm f l
  have hsorted : (sortByDesc f l).Pairwise (fun a b => f b ≤ f a) := by
    unfold sortByDesc
    refine (List.sorted_mergeSort ?_ ?_ l).imp (fun hab => by simpa using hab)
    · intro a b c hab hbc
      simp only [decide_eq_true_eq] at hab hbc ⊢; omega
    · intro a b
      simp only [Bool.or_eq_true, decide_eq_true_eq]; omega
  obtain ⟨rest, hrest⟩ : ∃ rest, sortByDesc f l = e :: rest := by
    cases hl : sortByDesc f l with
    | nil => rw [hl] at h; simp at h
    | cons x xs =>
        rw [hl] at h
        simp only [List.head?_cons, Option.some.injEq] at h
        exact ⟨xs, by rw [h]⟩
  constructor
  · exact hperm.mem_iff.mp (by simp [hrest])
  · intro x hx
    have hx' : x ∈ e :: rest := hrest ▸ hperm.mem_iff.mpr hx
    rcases List.mem_cons.mp hx' with rfl | hx''
    · exact le_refl _
    · exact (List.pairwise_cons.mp (hrest ▸ hsorted)).1 x hx''

/-- Removing the matched document from a decomposed collection. -/
theorem eraseP_decomp {α : Type} {p : α → Bool} {pre post : List α} {e : α}
    (hpre : ∀ x ∈ pre, ¬ p x) (he : p e) :
    (pre ++ e :: post).eraseP p = pre ++ post := by
  induction pre with
  | nil => simpa using List.eraseP_cons_of_pos he
  | cons x xs ih =>
      have hx : ¬ p x := hpre x (by simp)
      simp only [List.cons_append, List.eraseP_cons_of_neg hx]
      simpa using ih (fun y hy => hpre y (by simp [hy]))

/-- Updating the matched document of a decomposed collection in place. -/
theorem updateFirst_decomp {α : Type} {p : α → Bool} (f : α → α)
    {pre post : List α} {e : α}
    (hpre : ∀ x ∈ pre, ¬ p x) (he : p e) :
    updateFirst p f (pre ++ e :: post) = pre ++ f e :: post := by
  induction pre with
  | nil => simp [updateFirst, he]
  | cons x xs ih =>
      have hx : ¬ p x := hpre x (by simp)
      simp only [List.cons_append, updateFirst, if_neg hx]
      simpa using ih (fun y hy => hpre y (by simp [hy]))

/-- In a collection whose keys are pairwise distinct, no document other
than the decomposed-out one shares its key. -/
theorem nodup_decomp_ne {α : Type} {f : α → Int} {pre post : List α} {e : α}
    (h : ((pre ++ e :: post).map f).Nodup) :
    ∀ x ∈ pre ++ post, f x ≠ f e := by
  rw [List.map_append, List.map_cons] at h
  rcases List.nodup_append.mp h with ⟨-, hcons, hdisj⟩
  intro x hx
  rcases List.mem_append.mp hx with hx' | hx'
  · exact fun hEq => hdisj (List.mem_map_of_mem f hx') (hEq ▸ List.mem_cons_self _ _)
  · exact fun hEq => (List.nodup_cons.mp hcons).1 (hEq ▸ List.mem_map_of_mem f hx')

/-- A filter `{id: k}` with a genuine integer `k` finds no document
exactly when no document carries the id `k`. -/
theorem find?_matchesId_none {α : Type} (f : α → Int) (db : List α) (k : Int) :
    db.find? (fun x => matchesId (some k) (f x)) = none ↔ ∀ x ∈ db, f x ≠ k := by
  rw [List.find?_eq_none]
  constructor
  · intro h x hx
    have := h x hx
    simpa [matchesId] using this
  · intro h x hx
    simpa [matchesId] using h x hx

/-- When some document carries the id `k`, the filter `{id: k}` finds the
first such document, splitting the collection around it. -/
theorem find?_matchesId_decomp {α : Type} (f : α → Int) (db : List α) (k : Int)
    (h : ∃ x ∈ db, f x = k) :
    ∃ pre e post, db = pre ++ e :: post ∧ f e = k ∧ (∀ x ∈ pre, f x ≠ k) ∧
      db.find? (fun x => matchesId (some k) (f x)) = some e := by
  obtain ⟨x, hx, hxk⟩ := h
  have hsome : (db.find? (fun x => matchesId (some k) (f x))).isSome :=
    List.find?_isSome.mpr ⟨x, hx, by simp [matchesId, hxk]⟩
  obtain ⟨e, he⟩ := Option.isSome_iff_exists.mp hsome
  obtain ⟨hpe, pre, post, hdb, hpre⟩ := List.find?_eq_some.mp he
  refine ⟨pre, e, post, hdb, by simpa [matchesId] using hpe, ?_, he⟩
  intro y hy
  have := hpre y hy
  simpa [matchesId] using this

/-- A filter `{id: NaN}` matches no document. -/
theorem find?_matchesId_nan {α : Type} (f : α → Int) (db : List α) :
    db.find? (fun x => matchesId none (f x)) = none :=
  List.find?_eq_none.mpr (fun x _ => by simp [matchesId])

/-- The head of the descending sort: absent exactly on the empty
collection, otherwise a maximal-id document. -/
theorem sortByDesc_head_char {α : Type} (f : α → Int) (l : List α) :
    (l = [] → (sortByDesc f l).head? = none) ∧
    (l ≠ [] → ∃ e, (sortByDesc f l).head? = some e ∧ e ∈ l ∧
      ∀ x ∈ l, f x ≤ f e) := by
  constructor
  · rintro rfl
    simp [sortByDesc]
  · intro hne
    cases hl : (sortByDesc f l).head? with
    | none =>
        exfalso
        have hnil : sortByDesc f l = [] := List.head?_eq_none_iff.mp hl
        have hp := sortByDesc_perm f l
        rw [hnil] at hp
        exact hne hp.symm.eq_nil
    | some e =>
        obtain ⟨hmem, hmax⟩ := head_sortByDesc_max f l e hl
        exact ⟨e, rfl, hmem, hmax⟩

/-! ### Claim theorems -/

/-- C3 counterexample: in the simple variant (`src/unnamed/part_000`,
lines 38-41) `GET /api/events` is a bare `find()`: on the store
`[sampleEvent2, sampleEvent]` (ids 2 then 1, in insertion order) the
response body is the raw documents in natural order — not the ascending
projected rendering the claim demands — and every rendered record still
carries the internal fields `_id` and `__v`. -/
theorem get_collections_sorted_cex :
    getEventsSimple [sampleEvent2, sampleEvent] =
      ⟨200, Json.arr [Event.toJsonFull sampleEvent2, Event.toJsonFull sampleEvent]⟩ ∧
    (getEventsSimple [sampleEvent2, sampleEvent]).body ≠
      Json.arr ((sortByAsc Event.id [sampleEvent2, sampleEvent]).map Event.toJson) ∧
    "_id" ∈ (Event.toJsonFull sampleEvent2).objKeys ∧
    "__v" ∈ (Event.toJsonFull sampleEvent2).objKeys := by
  refine ⟨rfl, ?_, by decide, by decide⟩
  intro hEq
  cases hsorted : sortByAsc Event.id [sampleEvent2, sampleEvent] with
  | nil =>
      have hp := sortByAsc_perm Event.id [sampleEvent2, sampleEvent]
      rw [hsorted] at hp
      have := hp.length_eq
      simp at this
  | cons y ys =>
      rw [hsorted] at hEq
      simp only [getEventsSimple, List.map_cons, Json.arr.injEq,
        List.cons.injEq] at hEq
      obtain ⟨h1, -⟩ := hEq
      have hin : "_id" ∈ (Event.toJsonFull sampleEvent2).objKeys := by decide
      rw [h1] at hin
      obtain ⟨o, v, i, nm, dt, vn⟩ := y
      cases nm <;> cases dt <;> cases vn <;>
        simp [Event.toJson, Json.objKeys, optStr] at hin

/-- C3 (amended): for every state of the store, GET on a collection
endpoint of the full variant returns status 200 and the records of that
collection sorted by ascending id, with the internal storage fields (the
database-native `_id` and the version key `__v`) excluded from every
rendered record; in the simple variant, `GET /api/events` returns 200
with the records in natural (insertion) order, each rendered with its
internal storage fields included. -/
theorem get_collections_sorted_projected (edb : List Event)
    (adb : List Attendee) (odb : List Organizer) :
    ((getEvents edb).status = 200 ∧
      (getEvents edb).body = Json.arr ((sortByAsc Event.id edb).map Event.toJson) ∧
      (sortByAsc Event.id edb).Perm edb ∧
      (sortByAsc Event.id edb).Pairwise (fun a b => a.id ≤ b.id) ∧
      ∀ e : Event, "_id" ∉ (Event.toJson e).objKeys ∧
        "__v" ∉ (Event.toJson e).objKeys) ∧
    ((getAttendees adb).status = 200 ∧
      (getAttendees adb).body = Json.arr ((sortByAsc Attendee.id adb).map Attendee.toJson) ∧
      (sortByAsc Attendee.id adb).Perm adb ∧
      (sortByAsc Attendee.id adb).Pairwise (fun a b => a.id ≤ b.id) ∧
      ∀ a : Attendee, "_id" ∉ (Attendee.toJson a).objKeys ∧
        "__v" ∉ (Attendee.toJson a).objKeys) ∧
    ((getOrganizers odb).status = 200 ∧
      (getOrganizers odb).body = Json.arr ((sortByAsc Organizer.id odb).map Organizer.toJson) ∧
      (sortByAsc Organizer.id odb).Perm odb ∧
      (sortByAsc Organizer.id odb).Pairwise (fun a b => a.id ≤ b.id) ∧
      ∀ o : Organizer, "_id" ∉ (Organizer.toJson o).objKeys ∧
        "__v" ∉ (Organizer.toJson o).objKeys) ∧
    ((getEventsSimple edb).status = 200 ∧
      (getEventsSimple edb).body = Json.arr (edb.map Event.toJsonFull) ∧
      ∀ e : Event, "_id" ∈ (Event.toJsonFull e).objKeys ∧
        "__v" ∈ (Event.toJsonFull e).objKeys) := by
  refine ⟨⟨rfl, rfl, sortByAsc_perm _ _, sortByAsc_pairwise _ _, ?_⟩,
    ⟨rfl, rfl, sortByAsc_perm _ _, sortByAsc_pairwise _ _, ?_⟩,
    ⟨rfl, rfl, sortByAsc_perm _ _, sortByAsc_pairwise _ _, ?_⟩,
    rfl, rfl, ?_⟩
  · rintro ⟨o, v, i, nm, dt, vn⟩
    cases nm <;> cases dt <;> cases vn <;>
      simp [Event.toJson, Json.objKeys, optStr]
  · intro a
    simp [Attendee.toJson, Json.objKeys]
  · intro o
    simp [Organizer.toJson, Json.objKeys]
  · rintro ⟨o, v, i, nm, dt, vn⟩
    cases nm <;> cases dt <;> cases vn <;>
      simp [Event.toJsonFull, Json.objKeys, optStr]

/-- C8: the statistics endpoint answers 405 `{message: "Method not
allowed"}` exactly on non-GET methods; a GET gets 200 with the count of
Event records and the count of Attendee records; no other endpoint ever
produces a 405. -/
theorem stats_method_guard (method : String) (edb : List Event)
    (adb : List Attendee) (odb : List Organizer) (n : JsNum)
    (eb : EventBody) (ab : AttendeePatch) (abp : AttendeePost)
    (ob : OrganizerPatch) (obp : OrganizerPost) :
    ((eventStats method edb adb =
        ⟨405, Json.obj [("message", Json.str "Method not allowed")]⟩) ↔
      method ≠ "GET") ∧
    (method = "GET" → eventStats method edb adb =
      ⟨200, Json.obj [("totalEvents", Json.num edb.length),
        ("totalAttendees", Json.num adb.length)]⟩) ∧
    (getEvents edb).status ≠ 405 ∧
    (getEventById edb n).status ≠ 405 ∧
    (postEvents edb eb).2.status ≠ 405 ∧
    (patchEventById edb n eb).2.status ≠ 405 ∧
    (deleteEventById edb n).2.status ≠ 405 ∧
    (getAttendees adb).status ≠ 405 ∧
    (getAttendeeById adb n).status ≠ 405 ∧
    (postAttendees adb abp).2.status ≠ 405 ∧
    (patchAttendeeById adb n ab).2.status ≠ 405 ∧
    (deleteAttendeeById adb n).2.status ≠ 405 ∧
    (getOrganizers odb).status ≠ 405 ∧
    (getOrganizerById odb n).status ≠ 405 ∧
    (postOrganizers odb obp).2.status ≠ 405 ∧
    (patchOrganizerById odb n ob).2.status ≠ 405 ∧
    (deleteOrganizerById odb n).2.status ≠ 405 := by
  refine ⟨?_, ?_, ?_, ?_, ?_, ?_, ?_, ?_, ?_, ?_, ?_, ?_, ?_, ?_, ?_, ?_, ?_⟩
  · by_cases hm : method = "GET" <;> simp [eventStats, hm]
  · intro hm; simp [eventStats, hm]
  · simp [getEvents]
  · unfold getEventById; cases edb.find? (fun e => matchesId n e.id) <;> simp
  · simp [postEvents]
  · unfold patchEventById; cases edb.find? (fun e => matchesId n e.id) <;> simp
  · unfold deleteEventById; cases edb.find? (fun e => matchesId n e.id) <;> simp
  · simp [getAttendees]
  · unfold getAttendeeById; cases adb.find? (fun a => matchesId n a.id) <;> simp
  · simp [postAttendees]
  · unfold patchAttendeeById; cases adb.find? (fun a => matchesId n a.id) <;> simp
  · unfold deleteAttendeeById; cases adb.find? (fun a => matchesId n a.id) <;> simp
  · simp [getOrganizers]
  · unfold getOrganizerById; cases odb.find? (fun o => matchesId n o.id) <;> simp
  · simp [postOrganizers]
  · unfold patchOrganizerById; cases odb.find? (fun o => matchesId n o.id) <;> simp
  · unfold deleteOrganizerById; cases odb.find? (fun o => matchesId n o.id) <;> simp

/-- C8 witness: on `GET` with empty collections the endpoint reports both
counts as zero, and a `POST` is answered 405. -/
theorem stats_method_guard_witness :
    eventStats "GET" [] [] =
      ⟨200, Json.obj [("totalEvents", Json.num 0), ("totalAttendees", Json.num 0)]⟩ ∧
    eventStats "POST" [] [] =
      ⟨405, Json.obj [("message", Json.str "Method not allowed")]⟩ := by
  have h := stats_method_guard "GET" [] [] [] none
    ⟨none, none, none, none⟩ ⟨none, none, none⟩ ⟨none, "Alice", 1⟩
    ⟨none, none, none⟩ ⟨none, "Olga", "o"⟩
  have h2 := stats_method_guard "POST" [] [] [] none
    ⟨none, none, none, none⟩ ⟨none, none, none⟩ ⟨none, "Alice", 1⟩
    ⟨none, none, none⟩ ⟨none, "Olga", "o"⟩
  exact ⟨h.2.1 rfl, h2.1.mpr (by simp)⟩

/-- C10: a non-numeric `:id` path parameter coerces to `NaN`, which matches
no document, so GET, PATCH and DELETE by id answer 404 with the resource's
not-found message and leave the collection unchanged. -/
theorem nan_id_param_404 (edb : List Event) (adb : List Attendee)
    (odb : List Organizer) (eb : EventBody) (ab : AttendeePatch)
    (ob : OrganizerPatch) :
    getEventById edb none = ⟨404, eventNotFound⟩ ∧
    patchEventById edb none eb = (edb, ⟨404, eventNotFound⟩) ∧
    deleteEventById edb none = (edb, ⟨404, eventNotFound⟩) ∧
    getAttendeeById adb none = ⟨404, attendeeNotFound⟩ ∧
    patchAttendeeById adb none ab = (adb, ⟨404, attendeeNotFound⟩) ∧
    deleteAttendeeById adb none = (adb, ⟨404, attendeeNotFound⟩) ∧
    getOrganizerById odb none = ⟨404, organizerNotFound⟩ ∧
    patchOrganizerById odb none ob = (odb, ⟨404, organizerNotFound⟩) ∧
    deleteOrganizerById odb none = (odb, ⟨404, organizerNotFound⟩) := by
  refine ⟨?_, ?_, ?_, ?_, ?_, ?_, ?_, ?_, ?_⟩ <;>
    simp [getEventById, patchEventById, deleteEventById, getAttendeeById,
      patchAttendeeById, deleteAttendeeById, getOrganizerById,
      patchOrganizerById, deleteOrganizerById, find?_matchesId_nan]

/-- C4: `GET /api/events/:id` answers 404 with exactly the body
`{"message":"Event not found"}` precisely when no record carries the given
numeric id, and otherwise answers 200 with the matching record. -/
theorem get_event_by_id_contract (db : List Event) (k : Int) :
    ((getEventById db (some k) = ⟨404, eventNotFound⟩) ↔ ∀ e ∈ db, e.id ≠ k) ∧
    ((∃ e ∈ db, e.id = k) →
      ∃ e ∈ db, e.id = k ∧ getEventById db (some k) = ⟨200, e.toJson⟩) := by
  constructor
  · constructor
    · intro h
      by_contra hcon
      push_neg at hcon
      obtain ⟨e, he, hek⟩ := hcon
      obtain ⟨pre, e', post, hdb, hek', hpre, hfind⟩ :=
        find?_matchesId_decomp Event.id db k ⟨e, he, hek⟩
      unfold getEventById at h
      rw [hfind] at h
      simp [eventNotFound] at h
    · intro h
      unfold getEventById
      rw [(find?_matchesId_none Event.id db k).mpr h]
  · intro h
    obtain ⟨pre, e, post, hdb, hek, hpre, hfind⟩ :=
      find?_matchesId_decomp Event.id db k h
    refine ⟨e, ?_, hek, ?_⟩
    · rw [hdb]; simp
    · unfold getEventById
      rw [hfind]

/-- C4 witness: on a one-event store, id 1 is found with status 200 and
id 2 misses with the literal 404 body. -/
theorem get_event_by_id_contract_witness :
    (∃ e ∈ [sampleEvent], e.id = 1 ∧
      getEventById [sampleEvent] (some 1) = ⟨200, e.toJson⟩) ∧
    getEventById [sampleEvent] (some 2) = ⟨404, eventNotFound⟩ := by
  constructor
  · exact (get_event_by_id_contract [sampleEvent] 1).2
      ⟨sampleEvent, by simp, by decide⟩
  · exact (get_event_by_id_contract [sampleEvent] 2).1.mpr
      (by intro e he; simp at he; subst he; decide)

/-- C5 counterexample: in the simple variant (`src/unnamed/part_000`,
lines 83-86) `DELETE /api/events/:id` has no 404 path: on the empty
store, where nothing can match, it still answers 200 with the
confirmation message instead of the 404 with a not-found message that
the claim demands. -/
theorem delete_by_id_cex :
    deleteEventByIdSimple [] 5 =
      ([], ⟨200, Json.obj [("message", Json.str "Event deleted successfully")]⟩) ∧
    (deleteEventByIdSimple [] 5).2.status ≠ 404 := by
  exact ⟨rfl, by decide⟩

/-- C5 (amended): in the full variant, DELETE by id removes the first
matching record and answers 200 with the resource's confirmation message,
and with no match answers 404 with the resource-specific not-found
message, leaving the store unchanged; in the simple variant,
`DELETE /api/events/:id` removes the record whose native `_id` matches,
if any, and answers 200 with the confirmation message even when no
record matched. -/
theorem delete_by_id_contract (edb : List Event) (adb : List Attendee)
    (odb : List Organizer) (k : Int) (oidp : Nat) :
    (((∀ x ∈ edb, x.id ≠ k) →
        deleteEventById edb (some k) = (edb, ⟨404, eventNotFound⟩)) ∧
     ((∃ x ∈ edb, x.id = k) → ∃ pre e post, edb = pre ++ e :: post ∧
        e.id = k ∧ (∀ x ∈ pre, x.id ≠ k) ∧
        deleteEventById edb (some k) = (pre ++ post,
          ⟨200, Json.obj [("message", Json.str "Event deleted successfully")]⟩))) ∧
    (((∀ x ∈ adb, x.id ≠ k) →
        deleteAttendeeById adb (some k) = (adb, ⟨404, attendeeNotFound⟩)) ∧
     ((∃ x ∈ adb, x.id = k) → ∃ pre a post, adb = pre ++ a :: post ∧
        a.id = k ∧ (∀ x ∈ pre, x.id ≠ k) ∧
        deleteAttendeeById adb (some k) = (pre ++ post,
          ⟨200, Json.obj [("message", Json.str "Attendee removed")]⟩))) ∧
    (((∀ x ∈ odb, x.id ≠ k) →
        deleteOrganizerById odb (some k) = (odb, ⟨404, organizerNotFound⟩)) ∧
     ((∃ x ∈ odb, x.id = k) → ∃ pre o post, odb = pre ++ o :: post ∧
        o.id = k ∧ (∀ x ∈ pre, x.id ≠ k) ∧
        deleteOrganizerById odb (some k) = (pre ++ post,
          ⟨200, Json.obj [("message", Json.str "Organizer deleted")]⟩))) ∧
    (((deleteEventByIdSimple edb oidp).2 =
        ⟨200, Json.obj [("message", Json.str "Event deleted successfully")]⟩) ∧
     ((∀ x ∈ edb, x.oid ≠ oidp) → (deleteEventByIdSimple edb oidp).1 = edb) ∧
     ((∃ x ∈ edb, x.oid = oidp) → ∃ pre e post, edb = pre ++ e :: post ∧
        e.oid = oidp ∧ (∀ x ∈ pre, x.oid ≠ oidp) ∧
        (deleteEventByIdSimple edb oidp).1 = pre ++ post)) := by
  refine ⟨⟨?_, ?_⟩, ⟨?_, ?_⟩, ⟨?_, ?_⟩, rfl, ?_, ?_⟩
  · intro h
    unfold deleteEventById
    rw [(find?_matchesId_none Event.id edb k).mpr h]
  · intro h
    obtain ⟨pre, e, post, hdb, hek, hpre, hfind⟩ :=
      find?_matchesId_decomp Event.id edb k h
    refine ⟨pre, e, post, hdb, hek, hpre, ?_⟩
    unfold deleteEventById
    rw [hfind, hdb]
    rw [eraseP_decomp (fun x hx => by simp [matchesId, hpre x hx])
      (by simp [matchesId, hek])]
  · intro h
    unfold deleteAttendeeById
    rw [(find?_matchesId_none Attendee.id adb k).mpr h]
  · intro h
    obtain ⟨pre, a, post, hdb, hak, hpre, hfind⟩ :=
      find?_matchesId_decomp Attendee.id adb k h
    refine ⟨pre, a, post, hdb, hak, hpre, ?_⟩
    unfold deleteAttendeeById
    rw [hfind, hdb]
    rw [eraseP_decomp (fun x hx => by simp [matchesId, hpre x hx])
      (by simp [matchesId, hak])]
  · intro h
    unfold deleteOrganizerById
    rw [(find?_matchesId_none Organizer.id odb k).mpr h]
  · intro h
    obtain ⟨pre, o, post, hdb, hok, hpre, hfind⟩ :=
      find?_matchesId_decomp Organizer.id odb k h
    refine ⟨pre, o, post, hdb, hok, hpre, ?_⟩
    unfold deleteOrganizerById
    rw [hfind, hdb]
    rw [eraseP_decomp (fun x hx => by simp [matchesId, hpre x hx])
      (by simp [matchesId, hok])]
  · intro h
    exact List.eraseP_of_forall_not (fun x hx => by simp [h x hx])
  · intro h
    obtain ⟨x, hx, hxo⟩ := h
    obtain ⟨e, pre, post, hpre, hpe, hdb, herase⟩ :=
      List.exists_of_eraseP hx (p := fun e => e.oid == oidp) (by simp [hxo])
    exact ⟨pre, e, post, hdb, by simpa using hpe,
      fun y hy => by simpa using hpre y hy, herase⟩

/-- C5 witness: deleting organizer 5 from a store without it answers 404
`{"message":"Organizer not found"}`; deleting event 1 from a one-event
store removes it with the confirmation message; and in the simple variant
a non-matching delete still answers 200 and removes nothing. -/
theorem delete_by_id_contract_witness :
    deleteOrganizerById [sampleOrganizer] (some 5) =
      ([sampleOrganizer], ⟨404, organizerNotFound⟩) ∧
    (∃ pre e post, ([sampleEvent] : List Event) = pre ++ e :: post ∧
      e.id = 1 ∧ (∀ x ∈ pre, x.id ≠ 1) ∧
      deleteEventById [sampleEvent] (some 1) = (pre ++ post,
        ⟨200, Json.obj [("message", Json.str "Event deleted successfully")]⟩)) ∧
    (deleteEventByIdSimple [sampleEvent] 42).1 = [sampleEvent] ∧
    (deleteEventByIdSimple [sampleEvent] 42).2 =
      ⟨200, Json.obj [("message", Json.str "Event deleted successfully")]⟩ := by
  refine ⟨?_, ?_, ?_, ?_⟩
  · exact (delete_by_id_contract [sampleEvent] [] [sampleOrganizer] 5 42).2.2.1.1
      (by intro x hx; simp at hx; subst hx; decide)
  · exact (delete_by_id_contract [sampleEvent] [] [sampleOrganizer] 1 42).1.2
      ⟨sampleEvent, by simp, by decide⟩
  · exact (delete_by_id_contract [sampleEvent] [] [sampleOrganizer] 1 42).2.2.2.2.1
      (by intro x hx; simp at hx; subst hx; decide)
  · exact (delete_by_id_contract [sampleEvent] [] [sampleOrganizer] 1 42).2.2.2.1

/-- C6: on a store whose ids are pairwise distinct (the schema's unique
index on `id`), a successful DELETE followed by a GET of the same id
answers 404. -/
theorem delete_then_get_404 (db : List Event) (n : JsNum)
    (hnodup : (db.map Event.id).Nodup)
    (hok : (deleteEventById db n).2.status = 200) :
    getEventById (deleteEventById db n).1 n = ⟨404, eventNotFound⟩ := by
  cases n with
  | none =>
      exfalso
      unfold deleteEventById at hok
      rw [find?_matchesId_nan] at hok
      simp at hok
  | some k =>
      cases hf : db.find? (fun e => matchesId (some k) e.id) with
      | none =>
          exfalso
          unfold deleteEventById at hok
          rw [hf] at hok
          simp at hok
      | some e =>
          obtain ⟨hpe, pre, post, hdb, hpre⟩ := List.find?_eq_some.mp hf
          have hek : e.id = k := by simpa [matchesId] using hpe
          have herase : (deleteEventById db (some k)).1 = pre ++ post := by
            unfold deleteEventById
            rw [hf, hdb]
            refine eraseP_decomp ?_ hpe
            intro x hx
            have hx' := hpre x hx
            simp at hx'
            simp [hx']
          have hnd : ((pre ++ e :: post).map Event.id).Nodup := by
            rw [hdb] at hnodup; exact hnodup
          have hnone : (pre ++ post).find?
              (fun x => matchesId (some k) x.id) = none := by
            apply (find?_matchesId_none Event.id (pre ++ post) k).mpr
            intro x hx
            have hne := nodup_decomp_ne hnd x hx
            rw [hek] at hne
            exact hne
          rw [herase]
          unfold getEventById
          rw [hnone]

/-- C6 witness: deleting event 1 from a one-event store succeeds, and the
subsequent GET of id 1 answers 404. -/
theorem delete_then_get_404_witness :
    getEventById (deleteEventById [sampleEvent] (some 1)).1 (some 1) =
      ⟨404, eventNotFound⟩ :=
  delete_then_get_404 [sampleEvent] (some 1) (by decide) (by decide)

/-- C7: PATCH by id merges exactly the fields named in the body into the
matching record — a field the body does not name keeps its value, the
native `_id` and the version key are untouched, and every other record
stays in place — answering 200 with the updated record; with no match it
answers 404 and the store is unchanged. -/
theorem patch_by_id_frame (edb : List Event) (adb : List Attendee)
    (odb : List Organizer) (k : Int) (eb : EventBody) (ab : AttendeePatch)
    (ob : OrganizerPatch) :
    ((((∀ x ∈ edb, x.id ≠ k) →
        patchEventById edb (some k) eb = (edb, ⟨404, eventNotFound⟩)) ∧
      ((∃ x ∈ edb, x.id = k) → ∃ pre e post, edb = pre ++ e :: post ∧
        e.id = k ∧
        patchEventById edb (some k) eb =
          (pre ++ applySetEvent eb e :: post,
           ⟨200, (applySetEvent eb e).toJson⟩))) ∧
     (∀ e : Event,
      (applySetEvent eb e).oid = e.oid ∧
      (applySetEvent eb e).vkey = e.vkey ∧
      (eb.id = none → (applySetEvent eb e).id = e.id) ∧
      (∀ v, eb.id = some v → (applySetEvent eb e).id = v) ∧
      (eb.name = none → (applySetEvent eb e).name = e.name) ∧
      (∀ v, eb.name = some v → (applySetEvent eb e).name = some v) ∧
      (eb.date = none → (applySetEvent eb e).date = e.date) ∧
      (∀ v, eb.date = some v → (applySetEvent eb e).date = some v) ∧
      (eb.venue = none → (applySetEvent eb e).venue = e.venue) ∧
      (∀ v, eb.venue = some v → (applySetEvent eb e).venue = some v))) ∧
    ((((∀ x ∈ adb, x.id ≠ k) →
        patchAttendeeById adb (some k) ab = (adb, ⟨404, attendeeNotFound⟩)) ∧
      ((∃ x ∈ adb, x.id = k) → ∃ pre a post, adb = pre ++ a :: post ∧
        a.id = k ∧
        patchAttendeeById adb (some k) ab =
          (pre ++ applySetAttendee ab a :: post,
           ⟨200, (applySetAttendee ab a).toJson⟩))) ∧
     (∀ a : Attendee,
      (applySetAttendee ab a).oid = a.oid ∧
      (applySetAttendee ab a).vkey = a.vkey ∧
      (ab.id = none → (applySetAttendee ab a).id = a.id) ∧
      (∀ v, ab.id = some v → (applySetAttendee ab a).id = v) ∧
      (ab.name = none → (applySetAttendee ab a).name = a.name) ∧
      (∀ v, ab.name = some v → (applySetAttendee ab a).name = v) ∧
      (ab.eventId = none → (applySetAttendee ab a).eventId = a.eventId) ∧
      (∀ v, ab.eventId = some v → (applySetAttendee ab a).eventId = v))) ∧
    ((((∀ x ∈ odb, x.id ≠ k) →
        patchOrganizerById odb (some k) ob = (odb, ⟨404, organizerNotFound⟩)) ∧
      ((∃ x ∈ odb, x.id = k) → ∃ pre o post, odb = pre ++ o :: post ∧
        o.id = k ∧
        patchOrganizerById odb (some k) ob =
          (pre ++ applySetOrganizer ob o :: post,
           ⟨200, (applySetOrganizer ob o).toJson⟩))) ∧
     (∀ o : Organizer,
      (applySetOrganizer ob o).oid = o.oid ∧
      (applySetOrganizer ob o).vkey = o.vkey ∧
      (ob.id = none → (applySetOrganizer ob o).id = o.id) ∧
      (∀ v, ob.id = some v → (applySetOrganizer ob o).id = v) ∧
      (ob.name = none → (applySetOrganizer ob o).name = o.name) ∧
      (∀ v, ob.name = some v → (applySetOrganizer ob o).name = v) ∧
      (ob.contact = none → (applySetOrganizer ob o).contact = o.contact) ∧
      (∀ v, ob.contact = some v → (applySetOrganizer ob o).contact = v))) := by
  refine ⟨⟨⟨?_, ?_⟩, ?_⟩, ⟨⟨?_, ?_⟩, ?_⟩, ⟨⟨?_, ?_⟩, ?_⟩⟩
  · intro h
    unfold patchEventById
    rw [(find?_matchesId_none Event.id edb k).mpr h]
  · intro h
    obtain ⟨pre, e, post, hdb, hek, hpre, hfind⟩ :=
      find?_matchesId_decomp Event.id edb k h
    refine ⟨pre, e, post, hdb, hek, ?_⟩
    unfold patchEventById
    rw [hfind, hdb]
    rw [updateFirst_decomp (applySetEvent eb)
      (fun x hx => by simp [matchesId, hpre x hx])
      (by simp [matchesId, hek])]
  · intro e
    obtain ⟨bi, bn, bd, bv⟩ := eb
    cases bi <;> cases bn <;> cases bd <;> cases bv <;>
      simp [applySetEvent]
  · intro h
    unfold patchAttendeeById
    rw [(find?_matchesId_none Attendee.id adb k).mpr h]
  · intro h
    obtain ⟨pre, a, post, hdb, hak, hpre, hfind⟩ :=
      find?_matchesId_decomp Attendee.id adb k h
    refine ⟨pre, a, post, hdb, hak, ?_⟩
    unfold patchAttendeeById
    rw [hfind, hdb]
    rw [updateFirst_decomp (applySetAttendee ab)
      (fun x hx => by simp [matchesId, hpre x hx])
      (by simp [matchesId, hak])]
  · intro a
    obtain ⟨bi, bn, be⟩ := ab
    cases bi <;> cases bn <;> cases be <;>
      simp [applySetAttendee]
  · intro h
    unfold patchOrganizerById
    rw [(find?_matchesId_none Organizer.id odb k).mpr h]
  · intro h
    obtain ⟨pre, o, post, hdb, hok, hpre, hfind⟩ :=
      find?_matchesId_decomp Organizer.id odb k h
    refine ⟨pre, o, post, hdb, hok, ?_⟩
    unfold patchOrganizerById
    rw [hfind, hdb]
    rw [updateFirst_decomp (applySetOrganizer ob)
      (fun x hx => by simp [matchesId, hpre x hx])
      (by simp [matchesId, hok])]
  · intro o
    obtain ⟨bi, bn, bc⟩ := ob
    cases bi <;> cases bn <;> cases bc <;>
      simp [applySetOrganizer]

/-- C7 witness: patching event 1 with a body naming only `name` keeps the
other fields and answers 200 with the updated record. -/
theorem patch_by_id_frame_witness :
    ∃ pre e post, ([sampleEvent] : List Event) = pre ++ e :: post ∧
      e.id = 1 ∧
      patchEventById [sampleEvent] (some 1) ⟨none, some "Updated", none, none⟩ =
        (pre ++ applySetEvent ⟨none, some "Updated", none, none⟩ e :: post,
         ⟨200, (applySetEvent ⟨none, some "Updated", none, none⟩ e).toJson⟩) :=
  (patch_by_id_frame [sampleEvent] [] [] 1 ⟨none, some "Updated", none, none⟩
    ⟨none, none, none⟩ ⟨none, none, none⟩).1.1.2 ⟨sampleEvent, by simp, by decide⟩

/-- C9: a PATCH whose body contains an `id` field sets the matched
record's identifier to the supplied value — the `$set` of the whole
request body does not exclude `id` (events and attendees shown). -/
theorem patch_can_change_id (edb : List Event) (adb : List Attendee)
    (k v : Int) (eb : EventBody) (ab : AttendeePatch)
    (heb : eb.id = some v) (hab : ab.id = some v) :
    ((∃ x ∈ edb, x.id = k) → ∃ pre e post, edb = pre ++ e :: post ∧
      e.id = k ∧
      (patchEventById edb (some k) eb).1 = pre ++ applySetEvent eb e :: post ∧
      (applySetEvent eb e).id = v) ∧
    ((∃ x ∈ adb, x.id = k) → ∃ pre a post, adb = pre ++ a :: post ∧
      a.id = k ∧
      (patchAttendeeById adb (some k) ab).1 = pre ++ applySetAttendee ab a :: post ∧
      (applySetAttendee ab a).id = v) := by
  constructor
  · intro h
    obtain ⟨pre, e, post, hdb, hek, hpre, hfind⟩ :=
      find?_matchesId_decomp Event.id edb k h
    refine ⟨pre, e, post, hdb, hek, ?_, ?_⟩
    · unfold patchEventById
      rw [hfind, hdb]
      rw [updateFirst_decomp (applySetEvent eb)
        (fun x hx => by simp [matchesId, hpre x hx])
        (by simp [matchesId, hek])]
    · simp [applySetEvent, heb]
  · intro h
    obtain ⟨pre, a, post, hdb, hak, hpre, hfind⟩ :=
      find?_matchesId_decomp Attendee.id adb k h
    refine ⟨pre, a, post, hdb, hak, ?_, ?_⟩
    · unfold patchAttendeeById
      rw [hfind, hdb]
      rw [updateFirst_decomp (applySetAttendee ab)
        (fun x hx => by simp [matchesId, hpre x hx])
        (by simp [matchesId, hak])]
    · simp [applySetAttendee, hab]

/-- C9 witness: patching event 1 with the body `{id: 42}` stores the
record under id 42. -/
theorem patch_can_change_id_witness :
    ∃ pre e post, ([sampleEvent] : List Event) = pre ++ e :: post ∧
      e.id = 1 ∧
      (patchEventById [sampleEvent] (some 1) ⟨some 42, none, none, none⟩).1 =
        pre ++ applySetEvent ⟨some 42, none, none, none⟩ e :: post ∧
      (applySetEvent ⟨some 42, none, none, none⟩ e).id = 42 :=
  (patch_can_change_id [sampleEvent] [] 1 42 ⟨some 42, none, none, none⟩
    ⟨some 42, none, none⟩ rfl rfl).1 ⟨sampleEvent, by simp, by decide⟩

/-- C1 counterexample: POST with a request body that itself carries an
`id` key stores the body's id, not max+1: on the empty Event collection
the claim demands id 1, but the body `{id: 99, name: "X"}` is stored
with id 99. -/
theorem post_id_assignment_cex :
    ((postEvents [] ⟨some 99, some "X", none, none⟩).1.map Event.id) ≠ [1] := by
  decide

/-- C1 (amended): for every request body that does not itself contain an
`id` key, the id of the record a POST creates is one more than the maximum
id in that collection, or 1 if the collection is empty — for events,
attendees and organizers alike. -/
theorem post_id_assignment (edb : List Event) (adb : List Attendee)
    (odb : List Organizer) (eb : EventBody) (ab : AttendeePost)
    (ob : OrganizerPost) (he : eb.id = none) (ha : ab.id = none)
    (ho : ob.id = none) :
    (∃ e, (postEvents edb eb).1 = edb ++ [e] ∧
      (edb = [] → e.id = 1) ∧
      (edb ≠ [] → ∃ x ∈ edb, (∀ y ∈ edb, y.id ≤ x.id) ∧ e.id = x.id + 1)) ∧
    (∃ a, (postAttendees adb ab).1 = adb ++ [a] ∧
      (adb = [] → a.id = 1) ∧
      (adb ≠ [] → ∃ x ∈ adb, (∀ y ∈ adb, y.id ≤ x.id) ∧ a.id = x.id + 1)) ∧
    (∃ o, (postOrganizers odb ob).1 = odb ++ [o] ∧
      (odb = [] → o.id = 1) ∧
      (odb ≠ [] → ∃ x ∈ odb, (∀ y ∈ odb, y.id ≤ x.id) ∧ o.id = x.id + 1)) := by
  refine ⟨⟨_, rfl, ?_, ?_⟩, ⟨_, rfl, ?_, ?_⟩, ⟨_, rfl, ?_, ?_⟩⟩
  · rintro rfl
    rw [he]
    simp [newEventId, sortByDesc]
  · intro hne
    obtain ⟨x, hhead, hmem, hmax⟩ := (sortByDesc_head_char Event.id edb).2 hne
    refine ⟨x, hmem, hmax, ?_⟩
    show Option.getD eb.id (newEventId edb) = x.id + 1
    rw [he, Option.getD_none]
    unfold newEventId
    rw [hhead]
  · rintro rfl
    rw [ha]
    simp [newAttendeeId, sortByDesc]
  · intro hne
    obtain ⟨x, hhead, hmem, hmax⟩ := (sortByDesc_head_char Attendee.id adb).2 hne
    refine ⟨x, hmem, hmax, ?_⟩
    show Option.getD ab.id (newAttendeeId adb) = x.id + 1
    rw [ha, Option.getD_none]
    unfold newAttendeeId
    rw [hhead]
  · rintro rfl
    rw [ho]
    simp [newOrganizerId, sortByDesc]
  · intro hne
    obtain ⟨x, hhead, hmem, hmax⟩ := (sortByDesc_head_char Organizer.id odb).2 hne
    refine ⟨x, hmem, hmax, ?_⟩
    show Option.getD ob.id (newOrganizerId odb) = x.id + 1
    rw [ho, Option.getD_none]
    unfold newOrganizerId
    rw [hhead]

/-- C1 witness: a POST of the example body (no `id` key) on the empty
Event collection stores exactly one record, with id 1. -/
theorem post_id_assignment_witness :
    ((postEvents [] ⟨none, some "Launch", some "2024-01-01", some "Hall A"⟩).1.map
      Event.id) = [1] := by
  obtain ⟨⟨e, h1, h2, -⟩, -, -⟩ := post_id_assignment [] [] []
    ⟨none, some "Launch", some "2024-01-01", some "Hall A"⟩
    ⟨none, "Alice", 1⟩ ⟨none, "Olga", "o"⟩ rfl rfl rfl
  rw [h1]
  simp [h2 rfl]

/-- C2: POST `/api/events` answers 201 with the submitted request-body
fields together with the created record's id, all echoed from the input;
with no `id` key in the body the response is exactly the assigned id
followed by the body's fields; the example body on the empty collection
yields `{id: 1, name: "Launch", date: "2024-01-01", venue: "Hall A"}`. -/
theorem post_events_echo (db : List Event) (b : EventBody) :
    (∃ e, (postEvents db b).1 = db ++ [e] ∧
      (postEvents db b).2 =
        ⟨201, Json.obj (jsSpread [("id", Json.num e.id)] b.toDoc)⟩) ∧
    (b.id = none → (postEvents db b).2 =
      ⟨201, Json.obj (("id", Json.num (newEventId db)) :: b.toDoc)⟩) ∧
    (postEvents [] ⟨none, some "Launch", some "2024-01-01", some "Hall A"⟩).2 =
      ⟨201, Json.obj [("id", Json.num 1), ("name", Json.str "Launch"),
        ("date", Json.str "2024-01-01"), ("venue", Json.str "Hall A")]⟩ := by
  refine ⟨⟨_, rfl, rfl⟩, ?_, ?_⟩
  · intro h
    obtain ⟨bi, bn, bd, bv⟩ := b
    simp only at h
    subst h
    cases bn <;> cases bd <;> cases bv <;>
      simp [postEvents, EventBody.toDoc, jsSpread, setKey, optStr, optNum]
  · simp [postEvents, newEventId, sortByDesc, EventBody.toDoc, jsSpread,
      setKey, optStr, optNum, freshOid]

/-- C2 witness: a subsequent POST on a one-event store echoes the new body
with the next id, 2. -/
theorem post_events_echo_witness :
    (postEvents [sampleEvent] ⟨none, some "Second", none, none⟩).2 =
      ⟨201, Json.obj [("id", Json.num 2), ("name", Json.str "Second")]⟩ := by
  have h := (post_events_echo [sampleEvent] ⟨none, some "Second", none, none⟩).2.1 rfl
  rw [h]
  simp [newEventId, sortByDesc, EventBody.toDoc, optStr, optNum, sampleEvent]

end EventApi
